import Mathlib

/-!
Shallow embedding of `src/amps-exporter.py` (AMPS → Prometheus exporter).

The script fetches a JSON statistics document from an AMPS server and turns
selected fields of it into labeled Prometheus gauges.  We model the JSON
data as an inductive `Json` type, Python subscripting (`value[key]`) as a
fallible operation `subscript`, and the three functions of the script —
`get_stats`, `get_value`, `generate_metric_group` — together with the
`AMPSCollector.collect` orchestration, as computable Lean functions
returning `Except PyError _` (Python exceptions become `.error` values,
evaluated eagerly in program order, matching the order in which the Python
generators raise when consumed).
-/

/-- A JSON document, as produced by `requests.Response.json()`.
Numbers are modelled as integers (no claim depends on non-integral values). -/
inductive Json where
  | null
  | bool (b : Bool)
  | num (n : Int)
  | str (s : String)
  | arr (elems : List Json)
  | obj (fields : List (String × Json))

/-- `isinstance(x, list)` from line 114 of the source. -/
def Json.is_list : Json → Bool
  | .arr _ => true
  | _ => false

/-- The Python exceptions the script can raise, plus the two error kinds of
the HTTP layer (`requests` transport errors and JSON decode errors). -/
inductive PyError where
  | keyError (key : String)
  | typeError
  | fetchError
  | parseError
deriving DecidableEq

/-- Python subscripting `value[key]` with a string key:
on a dict it returns the entry or raises `KeyError`;
on anything else (a list, a number, ...) it raises `TypeError`. -/
def subscript (v : Json) (key : String) : Except PyError Json :=
  match v with
  | .obj fields =>
    match fields.lookup key with
    | some w => .ok w
    | none => .error (.keyError key)
  | _ => .error .typeError

/-- The result of the `requests.get` call as seen by the script:
either the transport fails (connection refused, timeout — `requests.get`
raises), or an HTTP response arrives, carrying a status code and a body;
the body is recorded as `some tree` when it is valid JSON and `none` when
`Response.json()` would fail to decode it. -/
inductive HttpOutcome where
  | transportFailure
  | response (status : Nat) (body : Option Json)

/-- `get_stats` (source lines 80-86): one `requests.get` call on the stats
URL followed by `.json()` on the response.  `requests.get` raises only on
transport failure; `Response.json()` raises on an undecodable body.  The
status code of the response is never examined (the source calls no
`raise_for_status` and reads no `status_code`). -/
def get_stats (outcome : HttpOutcome) : Except PyError Json :=
  match outcome with
  | .transportFailure => .error .fetchError
  | .response _status body =>
    match body with
    | some tree => .ok tree
    | none => .error .parseError

/-- Python `s.split(sep)` for a one-character separator, over the
character list of the string: splitting an empty string gives one empty
piece, and each separator occurrence starts a new piece. -/
def py_split_chars (sep : Char) : List Char → List (List Char)
  | [] => [[]]
  | c :: rest =>
    match py_split_chars sep rest with
    | piece :: pieces =>
      if c = sep then [] :: piece :: pieces else (c :: piece) :: pieces
    | [] => [[]]

/-- Python `s.split(sep)` for a one-character separator. -/
def py_split (sep : Char) (s : String) : List String :=
  (py_split_chars sep s.data).map (fun piece => String.mk piece)

/-- Python `s[1:]`: the string without its first character. -/
def py_tail (s : String) : String :=
  String.mk (s.data.drop 1)

/-- Python `s.replace(old, new)` for one-character `old` and `new`:
a character-wise map. -/
def py_replace_char (old new : Char) (s : String) : String :=
  String.mk (s.data.map (fun c => if c = old then new else c))

/-- The loop body of `get_value` (source lines 94-96): index the current
node by each path segment in turn. -/
def get_value_segs : Json → List String → Except PyError Json
  | v, [] => .ok v
  | v, key :: rest => do
    let w ← subscript v key
    get_value_segs w rest

/-- `get_value` (source lines 89-98): split the path on the slash, discard
the first segment, then subscript the tree by each remaining segment in
order. -/
def get_value (amps : Json) (path : String) : Except PyError Json :=
  get_value_segs amps ((py_split '/' path).drop 1)

/-- `METRIC_DOCS` (source lines 8-77): the static table of descriptions,
keyed by metric path and then by field name. -/
def METRIC_DOCS : List (String × List (String × String)) :=
  [("/amps/host/memory",
    [("free", "Amount of memory currently free"),
     ("in_use", "Amount of memory in use"),
     ("swap_free", "Amount of swap currently free"),
     ("swap_total", "Total amount of swap")]),
   ("/amps/host/network",
    [("bytes_in", "Total bytes in"),
     ("bytes_out", "Total bytes out")]),
   ("/amps/host/disks",
    [("file_system_free_percent", "The amount of available storage on a disk")]),
   ("/amps/host/cpus",
    [("iowait_percent", "Amount of CPU time waiting on I/O"),
     ("idle_percent", "Amount of CPU time idle")]),
   ("/amps/instance/processors",
    [("messages_received_per_sec", "Incoming messages per second from a source"),
     ("denied_reads", "Outgoing messages denied due to entitlement (on valid subscription)."),
     ("denied_writes", "Incoming messages denied due to entitlement (publishes)."),
     ("last_active", "Number of milliseconds since a processor was last active"),
     ("throttle_count",
      "Number of times the processor had to wait to add a message to the processing pipeline due to the instance reaching capacity limits on the number of in-progress messages. This metric can indicate resource constraints on AMPS.")]),
   ("/amps/instance/sow",
    [("inserts_per_sec", "Number of new records added per second"),
     ("updates_per_sec", "Number of records updated per second"),
     ("deletes_per_sec", "Number of records deleted per second"),
     ("queries_per_sec", "Number of queries of the topic per second"),
     ("insert_count", "Total count of new records added to the topic"),
     ("delete_count", "Total count of records removed from the topic"),
     ("update_count", "Total count of updates to records in the topic")]),
   ("/amps/instance/views",
    [("queue_depth", "Number of messages in the queue for the view to process")]),
   ("/amps/instance/queues",
    [("seconds_behind", "Age of oldest unacknowledged message in the queue"),
     ("queue_depth", "Number of messages in the queue"),
     ("transferred_in", "Number of messages that have had ownership transferred to this instance"),
     ("transferred_out", "Number of messages that this instance has previously owned, but granted ownership to another instance"),
     ("owned", "Number of messages currently owned")]),
   ("/amps/instance/replication",
    [("is_connected", "Whether or not this destination is connected"),
     ("seconds_behind", "Oldest message in the transaction log not yet sent to the downstream instance. Note: this is not an estimate of the time required to synchronize the downstream instance."),
     ("messages_out_per_sec", "Number of messages sent to the destination (per second)")]),
   ("/amps/instance/clients",
    [("transport_rx_queue", "Number of bytes in the transport receive queue for this connection"),
     ("transport_tx_queue", "Number of bytes in the transport send queue for this connection"),
     ("bytes_in_per_sec", "Number of bytes per second received from the client"),
     ("bytes_out_per_sec", "Number of bytes per second sent to the client"),
     ("queue_depth_out", "Number of messages buffered in AMPS for the client"),
     ("queue_max_latency", "Oldest message buffered in AMPS for the client")])]

/-- The two-level defaulting lookup of a metric description from
`METRIC_DOCS` (source line 120); both levels default, the inner one to the
placeholder text. -/
def metric_doc (path metric : String) : String :=
  ((((METRIC_DOCS.lookup path).getD []).lookup metric).getD
    "No description available")

/-- A `GaugeMetricFamily` from `prometheus_client` as the script uses it:
constructed with a name, a documentation string and one label name (source
lines 118-122), then populated by `add_metric([label_value], value)` calls;
`samples` records those calls in order as (label value, metric value). -/
structure GaugeMetricFamily where
  name : String
  documentation : String
  labels : List String
  samples : List (Json × Json)

/-- `entry_id in skip_ids` (source line 130): Python list membership via
`==`; a JSON value equals a member of the string list `skip_ids` exactly
when it is that string. -/
def id_in_skip_ids (entry_id : Json) (skip_ids : List String) : Bool :=
  match entry_id with
  | .str s => skip_ids.contains s
  | _ => false

/-- The list-shaped population loop of `generate_metric_group` (source
lines 126-134), for one metric: for each entry in order, read
`entry[label_key]`; skip the entry when `skip_ids` is nonempty and the id
is in `skip_ids`; otherwise emit the point `(entry_id, entry[metric])`. -/
def list_points (metric label_key : String) (skip_ids : List String) :
    List Json → Except PyError (List (Json × Json))
  | [] => .ok []
  | entry :: rest => do
    let entry_id ← subscript entry label_key
    if !skip_ids.isEmpty && id_in_skip_ids entry_id skip_ids then
      list_points metric label_key skip_ids rest
    else do
      let value ← subscript entry metric
      let tail ← list_points metric label_key skip_ids rest
      pure ((entry_id, value) :: tail)

/-- The population step of `generate_metric_group` (source lines 124-137)
for one metric: the `is_list` branch runs the per-entry loop, the other
branch emits the single point `(metric, group_entries[metric])`. -/
def gauge_samples (group_entries : Json) (metric label_key : String)
    (skip_ids : List String) : Except PyError (List (Json × Json)) :=
  match group_entries with
  | .arr entries => list_points metric label_key skip_ids entries
  | node =>
    subscript node metric >>= fun value =>
      pure [(Json.str metric, value)]

/-- One iteration of the `for metric in metrics` loop of
`generate_metric_group` (source lines 116-139): build the gauge named
`metric_name_base + metric` and populate it from the group node. -/
def gauge_for_metric (group_entries : Json) (metric_name_base path label_key : String)
    (skip_ids : List String) (metric : String) :
    Except PyError GaugeMetricFamily := do
  let samples ← gauge_samples group_entries metric label_key skip_ids
  pure { name := metric_name_base ++ metric,
         documentation := metric_doc path metric,
         labels := [metric],
         samples := samples }

/-- The `for metric in metrics` loop of `generate_metric_group`, run to
completion (the Python generator evaluated eagerly, yields collected in
order, the first raised exception aborting the whole run). -/
def gauges_for_metrics (group_entries : Json)
    (metric_name_base path label_key : String) (skip_ids : List String) :
    List String → Except PyError (List GaugeMetricFamily)
  | [] => .ok []
  | metric :: rest => do
    let gauge ← gauge_for_metric group_entries metric_name_base path label_key skip_ids metric
    let gauges ← gauges_for_metrics group_entries metric_name_base path label_key skip_ids rest
    pure (gauge :: gauges)

/-- `generate_metric_group` (source lines 101-139).  The Python default
arguments — label_key defaulting to id, skip_ids defaulting to the
singleton list containing all — are passed explicitly at every call site
below, as in the source (which never overrides them). -/
def generate_metric_group (stats : Json) (path : String) (metrics : List String)
    (label_key : String) (skip_ids : List String) :
    Except PyError (List GaugeMetricFamily) := do
  let group_entries ← get_value stats path
  let metric_name_base := py_replace_char '/' '_' (py_tail path) ++ "_"
  gauges_for_metrics group_entries metric_name_base path label_key skip_ids metrics

/-- `AMPSCollector.collect_host_metrics` (source lines 147-186): the four
host-level metric groups, in source order. -/
def collect_host_metrics (stats : Json) : Except PyError (List GaugeMetricFamily) := do
  let memory ← generate_metric_group stats "/amps/host/memory"
    ["free", "in_use", "swap_free", "swap_total"] "id" ["all"]
  let network ← generate_metric_group stats "/amps/host/network"
    ["bytes_in", "bytes_out"] "id" ["all"]
  let disks ← generate_metric_group stats "/amps/host/disks"
    ["file_system_free_percent"] "id" ["all"]
  let cpus ← generate_metric_group stats "/amps/host/cpus"
    ["iowait_percent", "idle_percent"] "id" ["all"]
  pure (memory ++ network ++ disks ++ cpus)

/-- `AMPSCollector.collect_message_flow_metrics` (source lines 188-208). -/
def collect_message_flow_metrics (stats : Json) : Except PyError (List GaugeMetricFamily) :=
  generate_metric_group stats "/amps/instance/processors"
    ["messages_received_per_sec", "denied_reads", "denied_writes",
     "last_active", "throttle_count"] "id" ["all"]

/-- `AMPSCollector.collect_sow_metrics` (source lines 210-237). -/
def collect_sow_metrics (stats : Json) : Except PyError (List GaugeMetricFamily) :=
  generate_metric_group stats "/amps/instance/sow"
    ["inserts_per_sec", "updates_per_sec", "deletes_per_sec",
     "queries_per_sec", "insert_count", "delete_count", "update_count"] "id" ["all"]

/-- `AMPSCollector.collect_views_metrics` (source lines 239-252). -/
def collect_views_metrics (stats : Json) : Except PyError (List GaugeMetricFamily) :=
  generate_metric_group stats "/amps/instance/views" ["queue_depth"] "id" ["all"]

/-- `AMPSCollector.collect_queue_metrics` (source lines 254-275). -/
def collect_queue_metrics (stats : Json) : Except PyError (List GaugeMetricFamily) :=
  generate_metric_group stats "/amps/instance/queues"
    ["seconds_behind", "queue_depth", "transferred_in", "transferred_out",
     "owned"] "id" ["all"]

/-- `AMPSCollector.collect_replication_metrics` (source lines 277-289). -/
def collect_replication_metrics (stats : Json) : Except PyError (List GaugeMetricFamily) :=
  generate_metric_group stats "/amps/instance/replication"
    ["is_connected", "seconds_behind", "messages_out_per_sec"] "id" ["all"]

/-- `AMPSCollector.collect_application_connection_metrics` (source lines
291-309). -/
def collect_application_connection_metrics (stats : Json) :
    Except PyError (List GaugeMetricFamily) :=
  generate_metric_group stats "/amps/instance/clients"
    ["transport_rx_queue", "transport_tx_queue", "bytes_in_per_sec",
     "bytes_out_per_sec", "queue_depth_out", "queue_max_latency"] "id" ["all"]

/-- `AMPSCollector.collect` (source lines 311-322): load the stats with
`get_stats` first, then yield every metric group in order.  The Python
method is a generator; `get_stats` runs when the first element is demanded,
before anything is yielded, so a fetch or parse failure produces the error
and no gauges at all. -/
def collect (outcome : HttpOutcome) : Except PyError (List GaugeMetricFamily) := do
  let stats ← get_stats outcome
  let host ← collect_host_metrics stats
  let flow ← collect_message_flow_metrics stats
  let sow ← collect_sow_metrics stats
  let views ← collect_views_metrics stats
  let queues ← collect_queue_metrics stats
  let repl ← collect_replication_metrics stats
  let clients ← collect_application_connection_metrics stats
  pure (host ++ flow ++ sow ++ views ++ queues ++ repl ++ clients)

/-- Whether a JSON node is a mapping (a Python `dict`). -/
def Json.is_obj : Json → Bool
  | .obj _ => true
  | _ => false

/-- The skip test of source line 130 applied to a whole entry: the entry is
skipped exactly when `entry[label_key]` resolves and `skip_ids` is nonempty
and the id is in `skip_ids`.  (An entry on which `entry[label_key]` raises
is not "skipped": the exception propagates.) -/
def entry_skipped (entry : Json) (label_key : String) (skip_ids : List String) : Bool :=
  match subscript entry label_key with
  | .ok entry_id => !skip_ids.isEmpty && id_in_skip_ids entry_id skip_ids
  | .error _ => false

/-- `entityCount` of the spec: the number of entries of a list-shaped group
that are not skipped. -/
def entity_count (entries : List Json) (label_key : String) (skip_ids : List String) : Nat :=
  (entries.filter (fun entry => ! entry_skipped entry label_key skip_ids)).length

/-- Scenario A input: the Stats Tree with one memory mapping under
amps, host, carrying free 100, in_use 50, swap_free 10, swap_total 20. -/
def scenario_a_tree : Json :=
  .obj [("amps", .obj [("host", .obj [("memory",
    .obj [("free", .num 100), ("in_use", .num 50),
          ("swap_free", .num 10), ("swap_total", .num 20)])])])]

/-- Scenario A expected output: gauge `amps_host_memory_free` with the point
(label `free`, value 100) and gauge `amps_host_memory_in_use` with the point
(label `in_use`, value 50). -/
def scenario_a_gauges : List GaugeMetricFamily :=
  [{ name := "amps_host_memory_free",
     documentation := "Amount of memory currently free",
     labels := ["free"],
     samples := [(Json.str "free", Json.num 100)] },
   { name := "amps_host_memory_in_use",
     documentation := "Amount of memory in use",
     labels := ["in_use"],
     samples := [(Json.str "in_use", Json.num 50)] }]

/-- Scenario B group entries: the aggregate entry with id all and value 0,
then the disk entry with id sda and value 73. -/
def scenario_b_entries : List Json :=
  [.obj [("id", .str "all"), ("file_system_free_percent", .num 0)],
   .obj [("id", .str "sda"), ("file_system_free_percent", .num 73)]]

/-- Scenario B input: the Stats Tree with the disks list under amps,
host. -/
def scenario_b_tree : Json :=
  .obj [("amps", .obj [("host", .obj [("disks", .arr scenario_b_entries)])])]

/-- Scenario B expected output: one gauge
`amps_host_disks_file_system_free_percent` with the single point (`sda`, 73). -/
def scenario_b_gauge : GaugeMetricFamily :=
  { name := "amps_host_disks_file_system_free_percent",
    documentation := "The amount of available storage on a disk",
    labels := ["file_system_free_percent"],
    samples := [(Json.str "sda", Json.num 73)] }

/-- A tree whose list group `/d` has one entry that carries an id but lacks
the declared field `f`. -/
def missing_field_tree : Json :=
  .obj [("d", .arr [.obj [("id", .str "x")]])]

/-- A tree whose list group `/d` has one entry that lacks the `id` field. -/
def missing_id_tree : Json :=
  .obj [("d", .arr [.obj []])]

/-- A tree whose list group `/d` has a skipped entry (`id` equal to `all`)
that lacks the declared field `f`, followed by a complete entry. -/
def skipped_missing_field_tree : Json :=
  .obj [("d", .arr [.obj [("id", .str "all")],
                    .obj [("id", .str "x"), ("f", .num 1)]])]

/-! ## Helper lemmas -/

/-- Inversion of a successful `Except` bind. -/
theorem except_bind_ok {α β : Type} {x : Except PyError α} {f : α → Except PyError β}
    {b : β} (h : x >>= f = Except.ok b) :
    ∃ a, x = Except.ok a ∧ f a = Except.ok b := by
  cases x with
  | error e => exact Except.noConfusion h
  | ok a => exact ⟨a, rfl, h⟩

/-- A failing first component fails the bind. -/
theorem except_bind_error {α β : Type} {x : Except PyError α} {f : α → Except PyError β}
    {e : PyError} (h : x = Except.error e) : x >>= f = Except.error e := by
  rw [h]; rfl

/-- Unfolding `list_points` at a cons cell. -/
theorem list_points_cons (metric label_key : String) (skip_ids : List String)
    (entry : Json) (rest : List Json) :
    list_points metric label_key skip_ids (entry :: rest) =
      (subscript entry label_key >>= fun entry_id =>
        if !skip_ids.isEmpty && id_in_skip_ids entry_id skip_ids then
          list_points metric label_key skip_ids rest
        else
          subscript entry metric >>= fun value =>
            list_points metric label_key skip_ids rest >>= fun tail =>
              pure ((entry_id, value) :: tail)) := rfl

/-- A successful run of the population loop has one point per non-skipped
entry. -/
theorem list_points_length (metric label_key : String) (skip_ids : List String) :
    ∀ (entries : List Json) (pts : List (Json × Json)),
      list_points metric label_key skip_ids entries = .ok pts →
      pts.length = entity_count entries label_key skip_ids := by
  intro entries
  induction entries with
  | nil =>
    intro pts h
    cases h
    rfl
  | cons entry rest ih =>
    intro pts h
    rw [list_points_cons] at h
    obtain ⟨entry_id, hsub, h2⟩ := except_bind_ok h
    by_cases hc : (!skip_ids.isEmpty && id_in_skip_ids entry_id skip_ids) = true
    · rw [if_pos hc] at h2
      have hskip : entry_skipped entry label_key skip_ids = true := by
        unfold entry_skipped
        rw [hsub]
        exact hc
      have := ih pts h2
      unfold entity_count at this ⊢
      simp [List.filter, hskip]
      simpa [entity_count] using this
    · rw [if_neg hc] at h2
      obtain ⟨value, hval, h3⟩ := except_bind_ok h2
      obtain ⟨tail, htail, h4⟩ := except_bind_ok h3
      cases h4
      have hskip : entry_skipped entry label_key skip_ids = false := by
        unfold entry_skipped
        rw [hsub]
        exact Bool.of_not_eq_true hc
      have := ih tail htail
      unfold entity_count at this ⊢
      simp [List.filter, hskip]
      simpa [entity_count] using this

/-- No point emitted by the population loop carries a label that is in the
skip list. -/
theorem list_points_labels (metric label_key : String) (skip_ids : List String)
    (hsk : skip_ids ≠ []) :
    ∀ (entries : List Json) (pts : List (Json × Json)),
      list_points metric label_key skip_ids entries = .ok pts →
      ∀ pt ∈ pts, id_in_skip_ids pt.1 skip_ids = false := by
  intro entries
  induction entries with
  | nil =>
    intro pts h
    cases h
    intro pt hpt
    cases hpt
  | cons entry rest ih =>
    intro pts h
    rw [list_points_cons] at h
    obtain ⟨entry_id, hsub, h2⟩ := except_bind_ok h
    by_cases hc : (!skip_ids.isEmpty && id_in_skip_ids entry_id skip_ids) = true
    · rw [if_pos hc] at h2
      exact ih pts h2
    · rw [if_neg hc] at h2
      obtain ⟨value, hval, h3⟩ := except_bind_ok h2
      obtain ⟨tail, htail, h4⟩ := except_bind_ok h3
      cases h4
      intro pt hpt
      cases hpt with
      | head =>
        have hne : skip_ids.isEmpty = false := by
          cases skip_ids with
          | nil => exact absurd rfl hsk
          | cons a l => rfl
        simp [hne] at hc
        exact hc
      | tail _ hmem => exact ih tail htail pt hmem

/-- A successful run of the population loop implies every non-skipped entry
carries the declared metric field. -/
theorem list_points_field_present (metric label_key : String) (skip_ids : List String) :
    ∀ (entries : List Json) (pts : List (Json × Json)),
      list_points metric label_key skip_ids entries = .ok pts →
      ∀ entry ∈ entries, entry_skipped entry label_key skip_ids = false →
        ∃ v, subscript entry metric = .ok v := by
  intro entries
  induction entries with
  | nil =>
    intro pts h entry hmem
    cases hmem
  | cons entry rest ih =>
    intro pts h e hmem hns
    rw [list_points_cons] at h
    obtain ⟨entry_id, hsub, h2⟩ := except_bind_ok h
    by_cases hc : (!skip_ids.isEmpty && id_in_skip_ids entry_id skip_ids) = true
    · rw [if_pos hc] at h2
      cases hmem with
      | head =>
        exfalso
        have : entry_skipped entry label_key skip_ids = true := by
          unfold entry_skipped
          rw [hsub]
          exact hc
        rw [this] at hns
        cases hns
      | tail _ hmem => exact ih pts h2 e hmem hns
    · rw [if_neg hc] at h2
      obtain ⟨value, hval, h3⟩ := except_bind_ok h2
      obtain ⟨tail, htail, h4⟩ := except_bind_ok h3
      cases hmem with
      | head => exact ⟨value, hval⟩
      | tail _ hmem => exact ih tail htail e hmem hns

/-- A successful run of the population loop implies every entry — skipped or
not — carries the label-key field (the id is read before the skip test). -/
theorem list_points_id_present (metric label_key : String) (skip_ids : List String) :
    ∀ (entries : List Json) (pts : List (Json × Json)),
      list_points metric label_key skip_ids entries = .ok pts →
      ∀ entry ∈ entries, ∃ entry_id, subscript entry label_key = .ok entry_id := by
  intro entries
  induction entries with
  | nil =>
    intro pts h entry hmem
    cases hmem
  | cons entry rest ih =>
    intro pts h e hmem
    rw [list_points_cons] at h
    obtain ⟨entry_id, hsub, h2⟩ := except_bind_ok h
    by_cases hc : (!skip_ids.isEmpty && id_in_skip_ids entry_id skip_ids) = true
    · rw [if_pos hc] at h2
      cases hmem with
      | head => exact ⟨entry_id, hsub⟩
      | tail _ hmem => exact ih pts h2 e hmem
    · rw [if_neg hc] at h2
      obtain ⟨value, hval, h3⟩ := except_bind_ok h2
      obtain ⟨tail, htail, h4⟩ := except_bind_ok h3
      cases hmem with
      | head => exact ⟨entry_id, hsub⟩
      | tail _ hmem => exact ih tail htail e hmem

/-- A skipped head entry contributes nothing, and none of its metric fields
are read: the loop continues on the remaining entries unchanged. -/
theorem list_points_skip_head (metric label_key : String) (skip_ids : List String)
    (entry : Json) (rest : List Json) (entry_id : Json)
    (hsub : subscript entry label_key = .ok entry_id)
    (hskip : (!skip_ids.isEmpty && id_in_skip_ids entry_id skip_ids) = true) :
    list_points metric label_key skip_ids (entry :: rest) =
      list_points metric label_key skip_ids rest := by
  rw [list_points_cons, hsub]
  show (if !skip_ids.isEmpty && id_in_skip_ids entry_id skip_ids then
      list_points metric label_key skip_ids rest
    else
      subscript entry metric >>= fun value =>
        list_points metric label_key skip_ids rest >>= fun tail =>
          pure ((entry_id, value) :: tail)) =
    list_points metric label_key skip_ids rest
  rw [if_pos hskip]

/-- A successfully built gauge has the name `metric_name_base + metric`, the
static documentation for `(path, metric)`, and the single label name
`metric`. -/
theorem gauge_for_metric_shape (group_entries : Json)
    (metric_name_base path label_key : String) (skip_ids : List String)
    (metric : String) (g : GaugeMetricFamily)
    (h : gauge_for_metric group_entries metric_name_base path label_key skip_ids metric =
      .ok g) :
    g.name = metric_name_base ++ metric ∧
    g.documentation = metric_doc path metric ∧
    g.labels = [metric] := by
  unfold gauge_for_metric at h
  obtain ⟨samples, hs, h2⟩ := except_bind_ok h
  cases h2
  exact ⟨rfl, rfl, rfl⟩

/-- On a list-shaped group, the samples of a successfully built gauge are
the output of the population loop. -/
theorem gauge_for_metric_list (entries : List Json)
    (metric_name_base path label_key : String) (skip_ids : List String)
    (metric : String) (g : GaugeMetricFamily)
    (h : gauge_for_metric (.arr entries) metric_name_base path label_key skip_ids metric =
      .ok g) :
    ∃ pts, list_points metric label_key skip_ids entries = .ok pts ∧ g.samples = pts := by
  unfold gauge_for_metric at h
  obtain ⟨samples, hs, h2⟩ := except_bind_ok h
  cases h2
  exact ⟨samples, hs, rfl⟩

/-- On a list-shaped group, the samples are the output of the population
loop. -/
theorem gauge_samples_list (entries : List Json) (metric label_key : String)
    (skip_ids : List String) :
    gauge_samples (.arr entries) metric label_key skip_ids =
      list_points metric label_key skip_ids entries := rfl

/-- On a group node that is not a list, the samples are the single point
`(metric, group_entries[metric])`. -/
theorem gauge_samples_scalar (group_entries : Json) (metric label_key : String)
    (skip_ids : List String) (samples : List (Json × Json))
    (hlist : group_entries.is_list = false)
    (h : gauge_samples group_entries metric label_key skip_ids = .ok samples) :
    ∃ v, subscript group_entries metric = .ok v ∧
      samples = [(Json.str metric, v)] := by
  cases group_entries
  case arr => exact absurd hlist (by simp [Json.is_list])
  all_goals {
    obtain ⟨v, hv, h3⟩ := except_bind_ok h
    cases h3
    exact ⟨v, hv, rfl⟩ }

/-- On a group node that is not a list, a successfully built gauge has the
single sample `(metric, group_entries[metric])`. -/
theorem gauge_for_metric_scalar (group_entries : Json)
    (metric_name_base path label_key : String) (skip_ids : List String)
    (metric : String) (g : GaugeMetricFamily)
    (hlist : group_entries.is_list = false)
    (h : gauge_for_metric group_entries metric_name_base path label_key skip_ids metric =
      .ok g) :
    ∃ v, subscript group_entries metric = .ok v ∧
      g.samples = [(Json.str metric, v)] := by
  unfold gauge_for_metric at h
  obtain ⟨samples, hs, h2⟩ := except_bind_ok h
  cases h2
  exact gauge_samples_scalar group_entries metric label_key skip_ids samples hlist hs

/-- A successful run of the metric loop pairs each metric with its gauge. -/
theorem gauges_for_metrics_forall2 (group_entries : Json)
    (metric_name_base path label_key : String) (skip_ids : List String) :
    ∀ (metrics : List String) (gauges : List GaugeMetricFamily),
      gauges_for_metrics group_entries metric_name_base path label_key skip_ids metrics =
        .ok gauges →
      List.Forall₂
        (fun metric g =>
          gauge_for_metric group_entries metric_name_base path label_key skip_ids metric =
            .ok g)
        metrics gauges := by
  intro metrics
  induction metrics with
  | nil =>
    intro gauges h
    cases h
    exact List.Forall₂.nil
  | cons metric rest ih =>
    intro gauges h
    obtain ⟨g, hg, h2⟩ := except_bind_ok h
    obtain ⟨gs, hgs, h3⟩ := except_bind_ok h2
    cases h3
    exact List.Forall₂.cons hg (ih gs hgs)

/-- Inversion of a successful `generate_metric_group` run: the path
resolved, and the metric loop ran on the resolved node with the base name
built from the path. -/
theorem generate_metric_group_ok (stats : Json) (path : String) (metrics : List String)
    (label_key : String) (skip_ids : List String) (gauges : List GaugeMetricFamily)
    (h : generate_metric_group stats path metrics label_key skip_ids = .ok gauges) :
    ∃ group_entries, get_value stats path = .ok group_entries ∧
      gauges_for_metrics group_entries (py_replace_char '/' '_' (py_tail path) ++ "_")
        path label_key skip_ids metrics = .ok gauges := by
  unfold generate_metric_group at h
  obtain ⟨group_entries, hge, h2⟩ := except_bind_ok h
  exact ⟨group_entries, hge, h2⟩

/-- Each right element of a `Forall₂` pairing has a related left element. -/
theorem forall2_exists_left {α β : Type} {R : α → β → Prop} :
    ∀ {l₁ : List α} {l₂ : List β}, List.Forall₂ R l₁ l₂ →
      ∀ b ∈ l₂, ∃ a ∈ l₁, R a b := by
  intro l₁ l₂ h
  induction h with
  | nil =>
    intro b hb
    cases hb
  | cons hR _ ih =>
    intro b hb
    cases hb with
    | head => exact ⟨_, List.mem_cons_self _ _, hR⟩
    | tail _ hb =>
      obtain ⟨a, ha, hab⟩ := ih b hb
      exact ⟨a, List.mem_cons_of_mem _ ha, hab⟩

/-- Each left element of a `Forall₂` pairing has a related right element. -/
theorem forall2_exists_right {α β : Type} {R : α → β → Prop} :
    ∀ {l₁ : List α} {l₂ : List β}, List.Forall₂ R l₁ l₂ →
      ∀ a ∈ l₁, ∃ b ∈ l₂, R a b := by
  intro l₁ l₂ h
  induction h with
  | nil =>
    intro a ha
    cases ha
  | cons hR _ ih =>
    intro a ha
    cases ha with
    | head => exact ⟨_, List.mem_cons_self _ _, hR⟩
    | tail _ ha =>
      obtain ⟨b, hb, hab⟩ := ih a ha
      exact ⟨b, List.mem_cons_of_mem _ hb, hab⟩

/-- Summing a constant over a list. -/
theorem sum_map_const {α : Type} (f : α → Nat) (c : Nat) :
    ∀ (l : List α), (∀ x ∈ l, f x = c) → (l.map f).sum = l.length * c := by
  intro l
  induction l with
  | nil => intro _; simp
  | cons a rest ih =>
    intro h
    have ha := h a (List.mem_cons_self _ _)
    have hrest := ih (fun x hx => h x (List.mem_cons_of_mem _ hx))
    simp [List.map, List.sum_cons, ha, hrest, Nat.succ_mul, Nat.add_comm]

/-- The gauge names of a successful metric loop are `base ++ metric`, one
per metric, in order. -/
theorem gauges_for_metrics_names (group_entries : Json)
    (metric_name_base path label_key : String) (skip_ids : List String)
    (metrics : List String) (gauges : List GaugeMetricFamily)
    (h : gauges_for_metrics group_entries metric_name_base path label_key skip_ids metrics =
      .ok gauges) :
    gauges.map (fun g => g.name) = metrics.map (fun metric => metric_name_base ++ metric) := by
  have hf := gauges_for_metrics_forall2 group_entries metric_name_base path label_key
    skip_ids metrics gauges h
  clear h
  induction hf with
  | nil => rfl
  | cons hR _ ih =>
    simp only [List.map]
    rw [(gauge_for_metric_shape _ _ _ _ _ _ _ hR).1, ih]

/-- The metric loop builds one gauge per metric. -/
theorem gauges_for_metrics_length (group_entries : Json)
    (metric_name_base path label_key : String) (skip_ids : List String)
    (metrics : List String) (gauges : List GaugeMetricFamily)
    (h : gauges_for_metrics group_entries metric_name_base path label_key skip_ids metrics =
      .ok gauges) :
    gauges.length = metrics.length :=
  (gauges_for_metrics_forall2 group_entries metric_name_base path label_key
    skip_ids metrics gauges h).length_eq.symm

/-- On the empty list group, the metric loop succeeds and yields one empty
gauge per metric. -/
theorem gauges_for_metrics_empty_list (metric_name_base path label_key : String)
    (skip_ids : List String) :
    ∀ metrics : List String,
      gauges_for_metrics (.arr []) metric_name_base path label_key skip_ids metrics =
        .ok (metrics.map (fun metric =>
          { name := metric_name_base ++ metric,
            documentation := metric_doc path metric,
            labels := [metric],
            samples := [] })) := by
  intro metrics
  induction metrics with
  | nil => rfl
  | cons metric rest ih =>
    show (gauge_for_metric (Json.arr []) metric_name_base path label_key skip_ids metric >>=
        fun g => gauges_for_metrics (Json.arr []) metric_name_base path label_key skip_ids rest >>=
          fun gs => pure (g :: gs)) = _
    rw [show gauge_for_metric (Json.arr []) metric_name_base path label_key skip_ids metric =
        Except.ok { name := metric_name_base ++ metric,
                    documentation := metric_doc path metric,
                    labels := [metric],
                    samples := [] } from rfl, ih]
    rfl

/-! ## Claims -/

/-- C1: on a successful run of `generate_metric_group`, a list-shaped group
yields one gauge per field with one point per non-skipped entry — in total
exactly `len(fields) * entityCount` labeled points — and a non-list group
yields one gauge per field with exactly one point each, in total exactly
`len(fields)` labeled points. -/
theorem claim_c1 (stats : Json) (path : String) (metrics : List String)
    (label_key : String) (skip_ids : List String) (gauges : List GaugeMetricFamily)
    (hok : generate_metric_group stats path metrics label_key skip_ids = .ok gauges) :
    (∀ entries, get_value stats path = .ok (.arr entries) →
      gauges.length = metrics.length ∧
      (∀ g ∈ gauges, g.samples.length = entity_count entries label_key skip_ids) ∧
      (gauges.map (fun g => g.samples.length)).sum =
        metrics.length * entity_count entries label_key skip_ids) ∧
    (∀ node, get_value stats path = .ok node → node.is_list = false →
      gauges.length = metrics.length ∧
      (∀ g ∈ gauges, g.samples.length = 1) ∧
      (gauges.map (fun g => g.samples.length)).sum = metrics.length) := by
  obtain ⟨ge, hge, hgm⟩ :=
    generate_metric_group_ok stats path metrics label_key skip_ids gauges hok
  constructor
  · intro entries he
    rw [hge] at he
    injection he with he
    subst he
    have hlen := gauges_for_metrics_length _ _ _ _ _ _ _ hgm
    have hf := gauges_for_metrics_forall2 _ _ _ _ _ _ _ hgm
    have hcount : ∀ g ∈ gauges, g.samples.length = entity_count entries label_key skip_ids := by
      intro g hg
      obtain ⟨m, hm, hpair⟩ := forall2_exists_left hf g hg
      obtain ⟨pts, hpts, hsam⟩ := gauge_for_metric_list _ _ _ _ _ _ _ hpair
      rw [hsam]
      exact list_points_length m label_key skip_ids entries pts hpts
    refine ⟨hlen, hcount, ?_⟩
    rw [sum_map_const (fun g => g.samples.length)
      (entity_count entries label_key skip_ids) gauges hcount, hlen]
  · intro node hnode hlist
    rw [hge] at hnode
    injection hnode with hnode
    subst hnode
    have hlen := gauges_for_metrics_length _ _ _ _ _ _ _ hgm
    have hf := gauges_for_metrics_forall2 _ _ _ _ _ _ _ hgm
    have hone : ∀ g ∈ gauges, g.samples.length = 1 := by
      intro g hg
      obtain ⟨m, hm, hpair⟩ := forall2_exists_left hf g hg
      obtain ⟨v, hv, hsam⟩ := gauge_for_metric_scalar _ _ _ _ _ _ _ hlist hpair
      rw [hsam]
      rfl
    refine ⟨hlen, hone, ?_⟩
    rw [sum_map_const (fun g => g.samples.length) 1 gauges hone, hlen, Nat.mul_one]

/-- C1 witness: Scenario B has one field and one non-skipped entry, and the
output indeed carries `1 * 1` labeled points. -/
theorem claim_c1_witness :
    generate_metric_group scenario_b_tree "/amps/host/disks" ["file_system_free_percent"]
        "id" ["all"] = .ok [scenario_b_gauge] ∧
    ([scenario_b_gauge].map (fun g => g.samples.length)).sum =
      (["file_system_free_percent"] : List String).length *
        entity_count scenario_b_entries "id" ["all"] :=
  ⟨rfl,
   ((claim_c1 scenario_b_tree "/amps/host/disks" ["file_system_free_percent"] "id" ["all"]
      [scenario_b_gauge] rfl).1 scenario_b_entries rfl).2.2⟩

/-- C2: the gauge names of a successful run are a pure function of the path
and the field name — the path with its leading slash removed, the remaining
slashes replaced by underscores, an underscore, and the field — and on
Scenario A the output is exactly the two gauges `amps_host_memory_free`
(label `free`, value 100) and `amps_host_memory_in_use` (label `in_use`,
value 50), the values read untransformed from the tree. -/
theorem claim_c2 (stats : Json) (path : String) (metrics : List String)
    (label_key : String) (skip_ids : List String) (gauges : List GaugeMetricFamily)
    (hslash : path.data.head? = some '/')
    (hok : generate_metric_group stats path metrics label_key skip_ids = .ok gauges) :
    gauges.map (fun g => g.name) =
      metrics.map (fun metric => py_replace_char '/' '_' (py_tail path) ++ "_" ++ metric) ∧
    generate_metric_group scenario_a_tree "/amps/host/memory" ["free", "in_use"]
      "id" ["all"] = .ok scenario_a_gauges := by
  obtain ⟨ge, hge, hgm⟩ :=
    generate_metric_group_ok stats path metrics label_key skip_ids gauges hok
  exact ⟨gauges_for_metrics_names _ _ _ _ _ _ _ hgm, rfl⟩

/-- C2 witness: Scenario A instantiates the name formula. -/
theorem claim_c2_witness :
    scenario_a_gauges.map (fun g => g.name) =
      (["free", "in_use"] : List String).map
        (fun metric => py_replace_char '/' '_' (py_tail "/amps/host/memory") ++ "_" ++ metric) :=
  (claim_c2 scenario_a_tree "/amps/host/memory" ["free", "in_use"] "id" ["all"]
    scenario_a_gauges rfl rfl).1

/-- C3: on a list-shaped group, no emitted point carries a label in the
skip list (so with the default skip list, no entity labeled `all` ever
appears), and Scenario B yields exactly one gauge with the single point
(`sda`, 73). -/
theorem claim_c3 (stats : Json) (path : String) (metrics : List String)
    (label_key : String) (skip_ids : List String) (gauges : List GaugeMetricFamily)
    (hok : generate_metric_group stats path metrics label_key skip_ids = .ok gauges) :
    (∀ entries, get_value stats path = .ok (.arr entries) → skip_ids ≠ [] →
      ∀ g ∈ gauges, ∀ pt ∈ g.samples, id_in_skip_ids pt.1 skip_ids = false) ∧
    generate_metric_group scenario_b_tree "/amps/host/disks" ["file_system_free_percent"]
      "id" ["all"] = .ok [scenario_b_gauge] := by
  obtain ⟨ge, hge, hgm⟩ :=
    generate_metric_group_ok stats path metrics label_key skip_ids gauges hok
  refine ⟨?_, rfl⟩
  intro entries he hsk g hg pt hpt
  rw [hge] at he
  injection he with he
  subst he
  have hf := gauges_for_metrics_forall2 _ _ _ _ _ _ _ hgm
  obtain ⟨m, hm, hpair⟩ := forall2_exists_left hf g hg
  obtain ⟨pts, hpts, hsam⟩ := gauge_for_metric_list _ _ _ _ _ _ _ hpair
  rw [hsam] at hpt
  exact list_points_labels m label_key skip_ids hsk entries pts hpts pt hpt

/-- C3 witness: the Scenario B output label `sda` is not in the default
skip list. -/
theorem claim_c3_witness :
    id_in_skip_ids (Json.str "sda") ["all"] = false :=
  (claim_c3 scenario_b_tree "/amps/host/disks" ["file_system_free_percent"] "id" ["all"]
      [scenario_b_gauge] rfl).1 scenario_b_entries rfl (List.cons_ne_nil _ _)
    scenario_b_gauge (List.mem_singleton.mpr rfl)
    (Json.str "sda", Json.num 73) (List.mem_singleton.mpr rfl)

/-- C4 counterexample: an HTTP 500 response whose body is valid JSON does
not fail at all — `get_stats` returns the parsed body, because the source
never examines the status code. -/
theorem claim_c4_counterexample :
    get_stats (HttpOutcome.response 500 (some (Json.obj []))) =
      Except.ok (Json.obj []) := rfl

/-- C4 amended: `get_stats` fails with a fetch-level error exactly on
transport failure (connection refused, timeout), fails with a parse-level
error when the body is not valid JSON, and succeeds with the parsed body
otherwise — the HTTP status code is never examined. -/
theorem claim_c4_amended :
    get_stats HttpOutcome.transportFailure = Except.error PyError.fetchError ∧
    (∀ status : Nat,
      get_stats (HttpOutcome.response status none) = Except.error PyError.parseError) ∧
    (∀ (status : Nat) (tree : Json),
      get_stats (HttpOutcome.response status (some tree)) = Except.ok tree) :=
  ⟨rfl, fun _ => rfl, fun _ _ => rfl⟩

/-- C5: `collect` runs `get_stats` first; if it fails, the whole scrape
fails with that error and no gauges are produced. -/
theorem claim_c5 (outcome : HttpOutcome) (e : PyError)
    (h : get_stats outcome = .error e) :
    collect outcome = .error e := by
  unfold collect
  rw [h]
  rfl

/-- C5 witness: a transport failure makes the whole scrape fail with the
fetch error. -/
theorem claim_c5_witness :
    collect HttpOutcome.transportFailure = Except.error PyError.fetchError :=
  claim_c5 HttpOutcome.transportFailure PyError.fetchError rfl

/-- C6: `get_value` splits the path on `/`, discards the first segment, and
indexes the tree with each remaining segment in order, treating the current
node as a mapping; a segment missing from a mapping raises `KeyError` and a
segment applied to a non-mapping node (such as a list) raises `TypeError`. -/
theorem claim_c6 :
    (∀ (amps : Json) (path : String),
      get_value amps path = get_value_segs amps ((py_split '/' path).drop 1)) ∧
    (∀ v : Json, get_value_segs v [] = .ok v) ∧
    (∀ (fields : List (String × Json)) (key : String) (rest : List String) (w : Json),
      fields.lookup key = some w →
      get_value_segs (.obj fields) (key :: rest) = get_value_segs w rest) ∧
    (∀ (fields : List (String × Json)) (key : String) (rest : List String),
      fields.lookup key = none →
      get_value_segs (.obj fields) (key :: rest) = .error (.keyError key)) ∧
    (∀ (v : Json) (key : String) (rest : List String), v.is_obj = false →
      get_value_segs v (key :: rest) = .error .typeError) := by
  refine ⟨fun _ _ => rfl, fun _ => rfl, ?_, ?_, ?_⟩
  · intro fields key rest w hlook
    show ((match fields.lookup key with
          | some w => Except.ok w
          | none => Except.error (PyError.keyError key)) >>= fun v =>
        get_value_segs v rest) = get_value_segs w rest
    rw [hlook]
    rfl
  · intro fields key rest hlook
    show ((match fields.lookup key with
          | some w => Except.ok w
          | none => Except.error (PyError.keyError key)) >>= fun v =>
        get_value_segs v rest) = Except.error (PyError.keyError key)
    rw [hlook]
    rfl
  · intro v key rest hobj
    cases v
    case obj => exact absurd hobj (by simp [Json.is_obj])
    all_goals rfl

/-- C6 witness: resolving `/amps` in `{"amps": 7}` walks one segment and
returns the value. -/
theorem claim_c6_witness :
    get_value (Json.obj [("amps", Json.num 7)]) "/amps" = Except.ok (Json.num 7) := by
  have h := claim_c6
  rw [h.1]
  have h3 := h.2.2.1 [("amps", Json.num 7)] "amps" [] (Json.num 7) rfl
  show get_value_segs (Json.obj [("amps", Json.num 7)]) ["amps"] = Except.ok (Json.num 7)
  rw [h3]
  exact h.2.1 (Json.num 7)

/-- C7: a successful run requires every declared field to be present — on
every non-skipped entry of a list-shaped group and on a non-list group node
— so a missing field forces a failure rather than a default value, and on a
concrete tree whose only entry lacks the declared field the run fails with
`KeyError` for that field. -/
theorem claim_c7 (stats : Json) (path : String) (metrics : List String)
    (label_key : String) (skip_ids : List String) (gauges : List GaugeMetricFamily)
    (hok : generate_metric_group stats path metrics label_key skip_ids = .ok gauges) :
    (∀ entries metric entry, get_value stats path = .ok (.arr entries) →
      metric ∈ metrics → entry ∈ entries →
      entry_skipped entry label_key skip_ids = false →
      ∃ v, subscript entry metric = .ok v) ∧
    (∀ node metric, get_value stats path = .ok node → node.is_list = false →
      metric ∈ metrics → ∃ v, subscript node metric = .ok v) ∧
    generate_metric_group missing_field_tree "/d" ["f"] "id" ["all"] =
      .error (.keyError "f") := by
  obtain ⟨ge, hge, hgm⟩ :=
    generate_metric_group_ok stats path metrics label_key skip_ids gauges hok
  have hf := gauges_for_metrics_forall2 _ _ _ _ _ _ _ hgm
  refine ⟨?_, ?_, rfl⟩
  · intro entries metric entry he hm hentry hns
    rw [hge] at he
    injection he with he
    subst he
    obtain ⟨g, hg, hpair⟩ := forall2_exists_right hf metric hm
    obtain ⟨pts, hpts, _⟩ := gauge_for_metric_list _ _ _ _ _ _ _ hpair
    exact list_points_field_present metric label_key skip_ids entries pts hpts entry hentry hns
  · intro node metric hnode hlist hm
    rw [hge] at hnode
    injection hnode with hnode
    subst hnode
    obtain ⟨g, hg, hpair⟩ := forall2_exists_right hf metric hm
    obtain ⟨v, hv, _⟩ := gauge_for_metric_scalar _ _ _ _ _ _ _ hlist hpair
    exact ⟨v, hv⟩

/-- C7 witness: a scalar group that succeeded indeed carries its declared
field. -/
theorem claim_c7_witness :
    subscript (Json.obj [("f", Json.num 5)]) "f" = Except.ok (Json.num 5) := by
  obtain ⟨v, hv⟩ :=
    (claim_c7 (Json.obj [("m", Json.obj [("f", Json.num 5)])]) "/m" ["f"] "id" ["all"]
        [{ name := "m_f", documentation := "No description available", labels := ["f"],
           samples := [(Json.str "f", Json.num 5)] }] rfl).2.1
      (Json.obj [("f", Json.num 5)]) "f" rfl rfl (List.mem_singleton.mpr rfl)
  have hv2 : Except.ok (Json.num 5) = Except.ok v := hv
  injection hv2 with hveq
  rw [← hveq] at hv
  exact hv

/-- C8: `generate_metric_group` is deterministic — two invocations on the
same Stats Tree and spec produce the same gauges, names, labels, and
samples, in the same order (the embedding is a pure function of its
inputs). -/
theorem claim_c8 (stats : Json) (path : String) (metrics : List String)
    (label_key : String) (skip_ids : List String) :
    generate_metric_group stats path metrics label_key skip_ids =
      generate_metric_group stats path metrics label_key skip_ids := rfl

/-- C9: when the path resolves to an empty list, `generate_metric_group`
succeeds and yields exactly one gauge per field, each with zero labeled
points. -/
theorem claim_c9 (stats : Json) (path : String) (metrics : List String)
    (label_key : String) (skip_ids : List String)
    (h : get_value stats path = .ok (.arr [])) :
    generate_metric_group stats path metrics label_key skip_ids =
      .ok (metrics.map (fun metric =>
        { name := py_replace_char '/' '_' (py_tail path) ++ "_" ++ metric,
          documentation := metric_doc path metric,
          labels := [metric],
          samples := [] })) := by
  unfold generate_metric_group
  rw [h]
  exact gauges_for_metrics_empty_list (py_replace_char '/' '_' (py_tail path) ++ "_")
    path label_key skip_ids metrics

/-- C9 witness: an empty disks list yields two empty gauges for a two-field
spec. -/
theorem claim_c9_witness :
    get_value (Json.obj [("g", Json.arr [])]) "/g" = Except.ok (Json.arr []) ∧
    generate_metric_group (Json.obj [("g", Json.arr [])]) "/g" ["f1", "f2"] "id" ["all"] =
      .ok ((["f1", "f2"] : List String).map (fun metric =>
        { name := py_replace_char '/' '_' (py_tail "/g") ++ "_" ++ metric,
          documentation := metric_doc "/g" metric,
          labels := [metric],
          samples := [] })) :=
  ⟨rfl, claim_c9 (Json.obj [("g", Json.arr [])]) "/g" ["f1", "f2"] "id" ["all"] rfl⟩

/-- C10: on a list-shaped group the id is read from every entry before the
skip test — success requires every entry to carry the label key, and a
concrete entry lacking `id` fails the run with `KeyError` on `id` — while a
skipped entry contributes nothing and its metric fields are never read, so
a concrete skipped entry lacking the declared field causes no error. -/
theorem claim_c10 :
    (∀ (stats : Json) (path : String) (metrics : List String)
      (label_key : String) (skip_ids : List String)
      (gauges : List GaugeMetricFamily) (entries : List Json),
      generate_metric_group stats path metrics label_key skip_ids = .ok gauges →
      get_value stats path = .ok (.arr entries) → metrics ≠ [] →
      ∀ entry ∈ entries, ∃ entry_id, subscript entry label_key = .ok entry_id) ∧
    (∀ (entries : List Json) (entry : Json) (metric label_key : String)
      (skip_ids : List String) (entry_id : Json),
      subscript entry label_key = .ok entry_id →
      (!skip_ids.isEmpty && id_in_skip_ids entry_id skip_ids) = true →
      list_points metric label_key skip_ids (entry :: entries) =
        list_points metric label_key skip_ids entries) ∧
    generate_metric_group missing_id_tree "/d" ["f"] "id" ["all"] =
      .error (.keyError "id") ∧
    generate_metric_group skipped_missing_field_tree "/d" ["f"] "id" ["all"] =
      .ok [{ name := "d_f", documentation := "No description available",
             labels := ["f"], samples := [(Json.str "x", Json.num 1)] }] := by
  refine ⟨?_, ?_, rfl, rfl⟩
  · intro stats path metrics label_key skip_ids gauges entries hok hge hne entry hentry
    obtain ⟨ge, hge2, hgm⟩ :=
      generate_metric_group_ok stats path metrics label_key skip_ids gauges hok
    rw [hge2] at hge
    injection hge with hge
    subst hge
    cases metrics with
    | nil => exact absurd rfl hne
    | cons m rest =>
      have hf := gauges_for_metrics_forall2 _ _ _ _ _ _ _ hgm
      obtain ⟨g, hg, hpair⟩ := forall2_exists_right hf m (List.mem_cons_self m rest)
      obtain ⟨pts, hpts, _⟩ := gauge_for_metric_list _ _ _ _ _ _ _ hpair
      exact list_points_id_present m label_key skip_ids entries pts hpts entry hentry
  · intro entries entry metric label_key skip_ids entry_id hsub hskip
    exact list_points_skip_head metric label_key skip_ids entry entries entry_id hsub hskip

/-- C10 witness: the non-skipped entry of the mixed tree indeed carries its
id. -/
theorem claim_c10_witness :
    subscript (Json.obj [("id", Json.str "x"), ("f", Json.num 1)]) "id" =
      Except.ok (Json.str "x") := by
  obtain ⟨eid, he⟩ :=
    claim_c10.1
      (Json.obj [("d", Json.arr [Json.obj [("id", Json.str "x"), ("f", Json.num 1)]])])
      "/d" ["f"] "id" ["all"]
      [{ name := "d_f", documentation := "No description available", labels := ["f"],
         samples := [(Json.str "x", Json.num 1)] }]
      [Json.obj [("id", Json.str "x"), ("f", Json.num 1)]]
      rfl rfl (List.cons_ne_nil _ _) _ (List.mem_singleton.mpr rfl)
  have he2 : Except.ok (Json.str "x") = Except.ok eid := he
  injection he2 with heq
  rw [← heq] at he
  exact he
